import Mathlib

/-!
# Verification of the LJPW composition/calibration core (Emergent-Code)

Shallow embedding of the numeric scoring pipeline of the repository:

* `calibrate_composition_rules.py`: `LJPWProfile`, `CouplingConstants`,
  `CompositionPredictor.predict`, `evaluate_constants`, `manual_calibration`,
  and the first training example of `collect_training_data`;
* `ljpw_semantic_capabilities.py`: `LJPWVector` (whose `__post_init__` clamps),
  `dominant_dimension`, archetype matching, `semantic_resonance`;
* `analyze_self_fractally.py`: the pure text core of `estimate_ljpw_from_file`.

Python floats are modelled as exact rationals (`ℚ`); every algorithm here is
plain arithmetic on small values, and every property under study concerns the
algebraic structure of the computation, not IEEE rounding.  Python `dict`s of
boolean flags are modelled as association lists (dict keys are unique and
lookup returns the first matching entry).
-/

/-- `max(0.0, min(1.0, x))`, the clamping pattern used throughout the sources. -/
def clamp01 (x : ℚ) : ℚ := max 0 (min 1 x)

/-- `LJPWProfile` from `calibrate_composition_rules.py` (lines 38-55):
a plain 4-field dataclass.  Its constructor does NOT clamp. -/
structure LJPWProfile where
  L : ℚ
  J : ℚ
  P : ℚ
  W : ℚ
deriving DecidableEq

/-- Squared Euclidean distance between two profiles.  The source's
`distance_to` is `math.sqrt` of this quantity; `evaluate_constants`
immediately squares it again (`error ** 2`), and `(sqrt d)^2 = d` for
`d ≥ 0`, so the squared distance is the faithful pure value to carry. -/
def LJPWProfile.distSq (a b : LJPWProfile) : ℚ :=
  (a.L - b.L) ^ 2 + (a.J - b.J) ^ 2 + (a.P - b.P) ^ 2 + (a.W - b.W) ^ 2

/-- `CouplingConstants` from `calibrate_composition_rules.py` (lines 68-101):
four coupling coefficients and eight structural bonuses. -/
structure CouplingConstants where
  κ_LJ : ℚ
  κ_LP : ℚ
  κ_JL : ℚ
  κ_WL : ℚ
  bonus_docstring : ℚ
  bonus_type_hints : ℚ
  bonus_error_handling : ℚ
  bonus_logging : ℚ
  bonus_testing : ℚ
  bonus_state : ℚ
  bonus_history : ℚ
  bonus_validation : ℚ
deriving DecidableEq

/-- The dataclass defaults of `CouplingConstants` ("current values from
theory"): κ_LJ=1.2, κ_LP=1.3, κ_JL=1.2, κ_WL=1.1 and the eight bonuses
0.10, 0.05, 0.08, 0.12, 0.15, 0.15, 0.20, 0.10. -/
def CouplingConstants.default : CouplingConstants :=
  { κ_LJ := 12/10
    κ_LP := 13/10
    κ_JL := 12/10
    κ_WL := 11/10
    bonus_docstring := 10/100
    bonus_type_hints := 5/100
    bonus_error_handling := 8/100
    bonus_logging := 12/100
    bonus_testing := 15/100
    bonus_state := 15/100
    bonus_history := 20/100
    bonus_validation := 10/100 }

/-- A Python `Dict[str, bool]` of structural flags, as an association list
(Python dict keys are unique; lookup returns the first matching entry). -/
abbrev StructuralFlags := List (String × Bool)

/-- `features.get(key, False)`: the value stored at `key` if present, else
`False`. -/
def getFlag (features : StructuralFlags) (key : String) : Bool :=
  match features.find? (fun p => p.1 == key) with
  | some p => p.2
  | none => false

/-- `sum(1 for v in features.values() if v)`: the number of true flags,
counting every entry of the mapping, recognized or not. -/
def trueCount (features : StructuralFlags) : Nat :=
  features.countP (fun p => p.2)

/-- The eight flag keys that `predict` reads bonuses for. -/
def recognizedFlagKeys : List String :=
  ["has_docstring", "has_type_hints", "has_error_handling", "has_logging",
   "has_testing", "has_state", "has_history", "has_validation"]

/-- `CompositionPredictor.predict` from `calibrate_composition_rules.py`
(lines 128-196), transcribed statement by statement: empty guard, per-axis
arithmetic mean, coupling amplification in source order, sequential
structural-bonus additions, harmony bonus when `feature_count >= 3`, and a
final clamp of every axis to [0, 1]. -/
def predict (constants : CouplingConstants) (components : List LJPWProfile)
    (features : StructuralFlags) : LJPWProfile :=
  if components = [] then ⟨0, 0, 0, 0⟩
  else
    let n : ℚ := (components.length : ℚ)
    let base_L := (components.map LJPWProfile.L).sum / n
    let base_J := (components.map LJPWProfile.J).sum / n
    let base_P := (components.map LJPWProfile.P).sum / n
    let base_W := (components.map LJPWProfile.W).sum / n
    let coupled_J := base_J * (1 + base_L * (constants.κ_LJ - 1))
    let coupled_P := base_P * (1 + base_L * (constants.κ_LP - 1))
    let coupled_L0 := base_L * (1 + base_J * (constants.κ_JL - 1))
    let coupled_L := coupled_L0 * (1 + base_W * (constants.κ_WL - 1))
    let L0 := coupled_L
    let J0 := coupled_J
    let P0 := coupled_P
    let W0 := base_W
    let L1 := if getFlag features "has_docstring" then L0 + constants.bonus_docstring else L0
    let W1 := if getFlag features "has_docstring" then W0 + constants.bonus_docstring * (5/10) else W0
    let W2 := if getFlag features "has_type_hints" then W1 + constants.bonus_type_hints else W1
    let J1 := if getFlag features "has_error_handling" then J0 + constants.bonus_error_handling else J0
    let L2 := if getFlag features "has_logging" then L1 + constants.bonus_logging else L1
    let J2 := if getFlag features "has_testing" then J1 + constants.bonus_testing else J1
    let W3 := if getFlag features "has_state" then W2 + constants.bonus_state else W2
    let J3 := if getFlag features "has_state" then J2 + constants.bonus_state * (5/10) else J2
    let L3 := if getFlag features "has_history" then L2 + constants.bonus_history else L2
    let W4 := if getFlag features "has_history" then W3 + constants.bonus_history * (3/10) else W3
    let J4 := if getFlag features "has_validation" then J3 + constants.bonus_validation else J3
    let feature_count := trueCount features
    let L4 := if 3 ≤ feature_count then L3 + (5/100) * ((feature_count : ℚ) - 2) else L3
    let J5 := if 3 ≤ feature_count then J4 + (5/100) * ((feature_count : ℚ) - 2) else J4
    let W5 := if 3 ≤ feature_count then W4 + (5/100) * ((feature_count : ℚ) - 2) else W4
    ⟨clamp01 L4, clamp01 J5, clamp01 P0, clamp01 W5⟩

/-- `CompositionExample` from `calibrate_composition_rules.py` (lines 58-64). -/
structure CompositionExample where
  components : List LJPWProfile
  structural_features : StructuralFlags
  actual_profile : LJPWProfile
  description : String

/-- `evaluate_constants` (lines 408-423): mean squared prediction error over
the examples.  The source accumulates `distance_to(actual) ** 2`, i.e.
exactly the squared Euclidean distance `distSq`. -/
def evaluate_constants (constants : CouplingConstants)
    (examples : List CompositionExample) : ℚ :=
  let total_error :=
    (examples.map (fun ex =>
      LJPWProfile.distSq (predict constants ex.components ex.structural_features)
        ex.actual_profile)).sum
  total_error / (examples.length : ℚ)

/-- `manual_calibration` (lines 474-498): the fallback taken by
`optimize_constants` when scipy is unavailable.  It ignores its `examples`
argument entirely and returns fixed constants (the documented
"reduce by ~25-30%" values). -/
def manual_calibration (_examples : List CompositionExample) : CouplingConstants :=
  { κ_LJ := 90/100
    κ_LP := 98/100
    κ_JL := 90/100
    κ_WL := 85/100
    bonus_docstring := 7/100
    bonus_type_hints := 35/1000
    bonus_error_handling := 56/1000
    bonus_logging := 84/1000
    bonus_testing := 105/1000
    bonus_state := 105/1000
    bonus_history := 14/100
    bonus_validation := 7/100 }

/-- Training example 1 of `collect_training_data` (lines 210-224): the
"secure_add function" row.  Its `actual_profile` is the empirically observed
LJPW(0.2, 0.2, 0.2, 0.4). -/
def secure_add_example : CompositionExample :=
  { components := [⟨1, 0, 0, 0⟩, ⟨0, 1, 0, 0⟩, ⟨5/10, 5/10, 0, 0⟩]
    structural_features := [("has_validation", true), ("has_logging", true)]
    actual_profile := ⟨2/10, 2/10, 2/10, 4/10⟩
    description := "secure_add function" }

/-- A training example whose `actual_profile` is reproduced exactly by the
default constants: the average is (1,1,0,0), coupling raises J to 1.2 and L
to 1.32, and the clamp brings both back to 1. -/
def perfect_fit_example : CompositionExample :=
  { components := [⟨1, 1, 0, 0⟩]
    structural_features := []
    actual_profile := ⟨1, 1, 0, 0⟩
    description := "a profile the default constants reproduce exactly" }

/-! ## Order-independent form of `predict`, following the wording of the
spec's five-step algorithm (mean, coupling formulas, per-flag bonuses to
their mapped axes, harmony bonus on L/J/W only, clamp).  `predictSpec` is
the spec-side definition that claim C1 compares against `predict`. -/

/-- Step 1 of the spec, L axis: unweighted arithmetic mean. -/
def meanL (components : List LJPWProfile) : ℚ :=
  (components.map LJPWProfile.L).sum / (components.length : ℚ)

/-- Step 1 of the spec, J axis. -/
def meanJ (components : List LJPWProfile) : ℚ :=
  (components.map LJPWProfile.J).sum / (components.length : ℚ)

/-- Step 1 of the spec, P axis. -/
def meanP (components : List LJPWProfile) : ℚ :=
  (components.map LJPWProfile.P).sum / (components.length : ℚ)

/-- Step 1 of the spec, W axis. -/
def meanW (components : List LJPWProfile) : ℚ :=
  (components.map LJPWProfile.W).sum / (components.length : ℚ)

/-- Step 2 of the spec: `J' = J * (1 + L * (κ_LJ - 1))`. -/
def coupledJ (c : CouplingConstants) (components : List LJPWProfile) : ℚ :=
  meanJ components * (1 + meanL components * (c.κ_LJ - 1))

/-- Step 2 of the spec: `P' = P * (1 + L * (κ_LP - 1))`. -/
def coupledP (c : CouplingConstants) (components : List LJPWProfile) : ℚ :=
  meanP components * (1 + meanL components * (c.κ_LP - 1))

/-- Step 2 of the spec: `L'' = (L * (1 + J * (κ_JL - 1))) * (1 + W * (κ_WL - 1))`. -/
def coupledL (c : CouplingConstants) (components : List LJPWProfile) : ℚ :=
  (meanL components * (1 + meanJ components * (c.κ_JL - 1)))
    * (1 + meanW components * (c.κ_WL - 1))

/-- Step 3 of the spec, contributions to L: docstring (full), logging (full),
history (full). -/
def flagBonusL (c : CouplingConstants) (f : StructuralFlags) : ℚ :=
  (if getFlag f "has_docstring" then c.bonus_docstring else 0)
  + (if getFlag f "has_logging" then c.bonus_logging else 0)
  + (if getFlag f "has_history" then c.bonus_history else 0)

/-- Step 3 of the spec, contributions to J: error handling (full), testing
(full), state (half), validation (full). -/
def flagBonusJ (c : CouplingConstants) (f : StructuralFlags) : ℚ :=
  (if getFlag f "has_error_handling" then c.bonus_error_handling else 0)
  + (if getFlag f "has_testing" then c.bonus_testing else 0)
  + (if getFlag f "has_state" then c.bonus_state * (5/10) else 0)
  + (if getFlag f "has_validation" then c.bonus_validation else 0)

/-- Step 3 of the spec, contributions to W: docstring (half), type hints
(full), state (full), history (0.3). -/
def flagBonusW (c : CouplingConstants) (f : StructuralFlags) : ℚ :=
  (if getFlag f "has_docstring" then c.bonus_docstring * (5/10) else 0)
  + (if getFlag f "has_type_hints" then c.bonus_type_hints else 0)
  + (if getFlag f "has_state" then c.bonus_state else 0)
  + (if getFlag f "has_history" then c.bonus_history * (3/10) else 0)

/-- Step 4 of the spec: `0.05 * (k - 2)` when the count `k` of true flags is
at least 3, else nothing. -/
def harmonyBonus (f : StructuralFlags) : ℚ :=
  if 3 ≤ trueCount f then (5/100) * ((trueCount f : ℚ) - 2) else 0

/-- The five-step composition as the spec words it: harmony and per-flag
bonuses are additive contributions to L, J, W (never P), clamped at the end. -/
def predictSpec (c : CouplingConstants) (components : List LJPWProfile)
    (f : StructuralFlags) : LJPWProfile :=
  ⟨clamp01 (coupledL c components + flagBonusL c f + harmonyBonus f),
   clamp01 (coupledJ c components + flagBonusJ c f + harmonyBonus f),
   clamp01 (coupledP c components),
   clamp01 (meanW components + flagBonusW c f + harmonyBonus f)⟩

/-- `f2` has every flag of `f1` that is true also true ("turning additional
flags true, holding everything else fixed"). -/
def FlagsLe (f1 f2 : StructuralFlags) : Prop :=
  ∀ k : String, getFlag f1 k = true → getFlag f2 k = true

/-- All eight structural bonuses are non-negative (true of the defaults and
of every bound the calibration uses). -/
def NonnegBonuses (c : CouplingConstants) : Prop :=
  0 ≤ c.bonus_docstring ∧ 0 ≤ c.bonus_type_hints ∧ 0 ≤ c.bonus_error_handling
  ∧ 0 ≤ c.bonus_logging ∧ 0 ≤ c.bonus_testing ∧ 0 ≤ c.bonus_state
  ∧ 0 ≤ c.bonus_history ∧ 0 ≤ c.bonus_validation

/-! ## `ljpw_semantic_capabilities.py` -/

/-- `LJPWVector` from `ljpw_semantic_capabilities.py` (lines 31-56). -/
structure LJPWVector where
  L : ℚ
  J : ℚ
  P : ℚ
  W : ℚ
deriving DecidableEq

/-- Construction of an `LJPWVector`: the dataclass `__init__` followed by
`__post_init__` (lines 39-44), which clamps every axis to [0, 1]. -/
def mkLJPWVector (L J P W : ℚ) : LJPWVector :=
  ⟨clamp01 L, clamp01 J, clamp01 P, clamp01 W⟩

/-- `dominant_dimension` (lines 53-56): `max(dims, key=dims.get)` over the
dict `{'L':…,'J':…,'P':…,'W':…}`.  Python's `max` returns the first key (in
insertion order L, J, P, W) attaining the maximum value. -/
def LJPWVector.dominant_dimension (v : LJPWVector) : String :=
  let m := max (max (max v.L v.J) v.P) v.W
  if v.L = m then "L" else if v.J = m then "J" else if v.P = m then "P" else "W"

/-- `SemanticEntity` (lines 59-67); the `timestamp` and `metadata` fields are
omitted as nothing under study reads them. -/
structure SemanticEntity where
  name : String
  coordinates : LJPWVector
  concept_count : Nat
  semantic_clarity : ℚ

/-- `semantic_resonance` (lines 525-560): 0.3 when the dominant dimensions
match plus 0.7 times the mean per-axis similarity, capped at 1. -/
def semantic_resonance (entity1 entity2 : SemanticEntity) : ℚ :=
  let c1 := entity1.coordinates
  let c2 := entity2.coordinates
  let dom1 := c1.dominant_dimension
  let dom2 := c2.dominant_dimension
  let dominant_match : ℚ := if dom1 = dom2 then 3/10 else 0
  let avg_similarity :=
    ((1 - |c1.L - c2.L|) + (1 - |c1.J - c2.J|) + (1 - |c1.P - c2.P|) + (1 - |c1.W - c2.W|)) / 4
  min 1 (dominant_match + avg_similarity * (7/10))

/-- The `Archetype` enum (lines 323-341). -/
inductive Archetype where
  | PUBLIC_GATEWAY
  | SECURITY_SENTINEL
  | DATA_VAULT
  | MONITORING_HUB
  | API_ENDPOINT
  | VALIDATOR
  | TRANSFORMER
  | LOGGER
  | BALANCED_SYSTEM
  | CHAOTIC_SYSTEM
  | FORTRESS
deriving DecidableEq

/-- A per-axis `(low, high)` range table, one row of `ARCHETYPE_SIGNATURES`. -/
structure ArchetypeSignature where
  L : ℚ × ℚ
  J : ℚ × ℚ
  P : ℚ × ℚ
  W : ℚ × ℚ

/-- `ARCHETYPE_SIGNATURES` (lines 345-379), in dict insertion order. -/
def ARCHETYPE_SIGNATURES : List (Archetype × ArchetypeSignature) :=
  [(.PUBLIC_GATEWAY,    ⟨(7/10, 1), (4/10, 7/10), (5/10, 8/10), (4/10, 7/10)⟩),
   (.SECURITY_SENTINEL, ⟨(1/10, 4/10), (8/10, 1), (3/10, 6/10), (5/10, 8/10)⟩),
   (.DATA_VAULT,        ⟨(3/10, 6/10), (5/10, 8/10), (7/10, 1), (4/10, 7/10)⟩),
   (.MONITORING_HUB,    ⟨(5/10, 8/10), (4/10, 7/10), (4/10, 7/10), (8/10, 1)⟩),
   (.API_ENDPOINT,      ⟨(7/10, 1), (4/10, 7/10), (7/10, 1), (4/10, 7/10)⟩),
   (.VALIDATOR,         ⟨(3/10, 6/10), (8/10, 1), (3/10, 6/10), (5/10, 8/10)⟩),
   (.TRANSFORMER,       ⟨(4/10, 7/10), (4/10, 7/10), (7/10, 1), (5/10, 8/10)⟩),
   (.LOGGER,            ⟨(5/10, 8/10), (3/10, 6/10), (3/10, 6/10), (8/10, 1)⟩),
   (.BALANCED_SYSTEM,   ⟨(5/10, 8/10), (5/10, 8/10), (5/10, 8/10), (5/10, 8/10)⟩),
   (.CHAOTIC_SYSTEM,    ⟨(0, 1), (0, 1), (0, 1), (0, 1)⟩),
   (.FORTRESS,          ⟨(0, 3/10), (9/10, 1), (4/10, 7/10), (5/10, 8/10)⟩)]

/-- The per-dimension block of `_archetype_match_score` (lines 411-428):
inside the range, 1 minus half the normalized distance to the center;
outside the range, `max(0, 1 - penalty)` with the source's penalty. -/
def dimensionScore (value low high : ℚ) : ℚ :=
  if low ≤ value ∧ value ≤ high then
    let center := (low + high) / 2
    let range_size := (high - low) / 2
    if 0 < range_size then 1 - (|value - center| / range_size) * (5/10)
    else 1
  else
    let penalty :=
      if value < low then (low - value) / max low (1/10)
      else (value - high) / max (1 - high) (1/10)
    max 0 (1 - penalty)

/-- `sum(high - low for low, high in signature.values())` (line 408). -/
def signatureTotalRange (s : ArchetypeSignature) : ℚ :=
  (s.L.2 - s.L.1) + (s.J.2 - s.J.1) + (s.P.2 - s.P.1) + (s.W.2 - s.W.1)

/-- `_archetype_match_score` (lines 400-432): mean of the four dimension
scores, multiplied by `0.7 + 0.3 * specificity_bonus`. -/
def archetype_match_score (coords : LJPWVector) (signature : ArchetypeSignature) : ℚ :=
  let specificity_bonus := 1 - signatureTotalRange signature / 4
  let scores := [dimensionScore coords.L signature.L.1 signature.L.2,
                 dimensionScore coords.J signature.J.1 signature.J.2,
                 dimensionScore coords.P signature.P.1 signature.P.2,
                 dimensionScore coords.W signature.W.1 signature.W.2]
  let base_score := if scores = [] then 0 else scores.sum / (scores.length : ℚ)
  base_score * (7/10 + (3/10) * specificity_bonus)

/-- One iteration of the `match_archetype` loop (lines 391-395): keep the
candidate whenever its score strictly exceeds the best so far. -/
def matchStep (coords : LJPWVector) (best : Option Archetype × ℚ)
    (entry : Archetype × ArchetypeSignature) : Option Archetype × ℚ :=
  let score := archetype_match_score coords entry.2
  if best.2 < score then (some entry.1, score) else best

/-- `match_archetype` (lines 382-397): fold over the signature table starting
from `(None, -1.0)`. -/
def match_archetype (coords : LJPWVector) : Option Archetype × ℚ :=
  ARCHETYPE_SIGNATURES.foldl (matchStep coords) (none, -1)

/-- The property claimed of `match_archetype`'s result: a defined archetype
and a confidence within [0, 1]. -/
def goodAcc (acc : Option Archetype × ℚ) : Prop :=
  acc.1.isSome = true ∧ 0 ≤ acc.2 ∧ acc.2 ≤ 1

/-! ## `analyze_self_fractally.py`: the pure text core of
`estimate_ljpw_from_file` (lines 34-77).  The file read is I/O; its outcome
is modelled as `Option String`: `none` for an unreadable file (the source's
bare `except` path), `some content` for a successful read. -/

/-- Python's `str.count(pat)` for a non-empty pattern: count non-overlapping
occurrences, scanning left to right. -/
def countSub (pat : List Char) : List Char → Nat
  | [] => 0
  | c :: rest =>
    if List.isPrefixOf pat (c :: rest) then
      countSub pat (rest.drop (pat.length - 1)) + 1
    else countSub pat rest
termination_by l => l.length
decreasing_by
  · simp only [List.length_cons, List.length_drop]
    omega
  · simp only [List.length_cons]
    omega

/-- Python's substring containment `pat in line`. -/
def hasSub (pat : List Char) (l : List Char) : Bool :=
  (List.tails l).any (fun t => List.isPrefixOf pat t)

/-- Python's `str.strip()` (whitespace on both ends; only the leading strip
matters for the `startswith('#')` test below). -/
def pyStrip (l : List Char) : List Char :=
  ((l.dropWhile Char.isWhitespace).reverse.dropWhile Char.isWhitespace).reverse

/-- `line.strip().startswith('#')`'s final test. -/
def startsWithHash (l : List Char) : Bool :=
  match l with
  | c :: _ => c = '#'
  | [] => false

/-- Python's `content.split('\n')`: the empty text yields one empty line,
and each newline character introduces one more field. -/
def splitNl : List Char → List (List Char)
  | [] => [[]]
  | c :: rest =>
    match splitNl rest with
    | [] => [[]]
    | l :: ls => if c = Char.ofNat 10 then [] :: l :: ls else (c :: l) :: ls

/-- The pattern of three single-quote characters (ASCII 39). -/
def tripleSingleQuote : List Char := List.replicate 3 (Char.ofNat 39)

/-- `estimate_ljpw_from_file` (lines 34-77) on the content of the file:
`none` (read failure) returns the all-0.3 default; otherwise the weighted
pattern counts, each axis capped at 1 by `min` and finally passed through
the clamping `LJPWVector` constructor.  Note `split('\n')` never yields an
empty list, so the `total_lines == 0` branch is unreachable. -/
def estimate_ljpw_from_content (text : Option String) : LJPWVector :=
  match text with
  | none => mkLJPWVector (3/10) (3/10) (3/10) (3/10)
  | some content =>
    let cs := content.data
    let lines := splitNl cs
    let total_lines := lines.length
    if total_lines = 0 then mkLJPWVector (3/10) (3/10) (3/10) (3/10)
    else
      let lower := cs.map Char.toLower
      let docstrings := countSub "\"\"\"".data cs + countSub tripleSingleQuote cs
      let comments := lines.countP (fun line => startsWithHash (pyStrip line))
      let imports := lines.countP (fun line => hasSub "import".data line)
      let love := min 1 ((3:ℚ)/10 + (docstrings : ℚ) * (5/100)
        + (comments : ℚ) / (total_lines : ℚ) + (imports : ℚ) * (2/100))
      let try_blocks := countSub "try:".data cs
      let asserts := countSub "assert ".data cs
      let validates := countSub "valid".data lower
      let raises := countSub "raise ".data cs
      let justice := min 1 ((2:ℚ)/10 + (try_blocks : ℚ) * (8/100) + (asserts : ℚ) * (3/100)
        + (validates : ℚ) * (5/100) + (raises : ℚ) * (4/100))
      let functions := countSub "def ".data cs
      let classes := countSub "class ".data cs
      let returns := countSub "return ".data cs
      let power := min 1 ((3:ℚ)/10 + (functions : ℚ) * (3/100) + (classes : ℚ) * (5/100)
        + (returns : ℚ) * (2/100))
      let logs := countSub "log".data lower
      let prints := countSub "print(".data cs
      let metrics := countSub "metric".data lower
      let wisdom := min 1 ((2:ℚ)/10 + (logs : ℚ) * (4/100) + (prints : ℚ) * (2/100)
        + (metrics : ℚ) * (5/100))
      mkLJPWVector love justice power wisdom

/-! ## Helper lemmas -/

theorem clamp01_nonneg (x : ℚ) : 0 ≤ clamp01 x := le_max_left 0 _

theorem clamp01_le_one (x : ℚ) : clamp01 x ≤ 1 := max_le (by norm_num) (min_le_left 1 x)

theorem clamp01_mono {a b : ℚ} (h : a ≤ b) : clamp01 a ≤ clamp01 b :=
  max_le_max le_rfl (min_le_min le_rfl h)

theorem clamp01_eq_self {x : ℚ} (h0 : 0 < clamp01 x) (h1 : clamp01 x < 1) : clamp01 x = x := by
  simp only [clamp01] at *
  rcases le_or_lt 1 x with hx | hx
  · rw [min_eq_left hx] at h1
    rw [max_eq_right (by norm_num : (0:ℚ) ≤ 1)] at h1
    exact absurd h1 (lt_irrefl 1)
  · rw [min_eq_right (le_of_lt hx)] at h0 ⊢
    rcases le_or_lt x 0 with hx0 | hx0
    · rw [max_eq_left hx0] at h0
      exact absurd h0 (lt_irrefl 0)
    · exact max_eq_right (le_of_lt hx0)

theorem clamp01_lt_of_lt {a b : ℚ} (hab : a < b) (h0 : 0 < clamp01 b) (h1 : clamp01 b < 1) :
    clamp01 a < clamp01 b := by
  have hbb := clamp01_eq_self h0 h1
  rw [hbb] at h0 h1
  rw [hbb]
  have ha1 : a ≤ 1 := le_of_lt (lt_trans hab h1)
  simp only [clamp01]
  rw [min_eq_right ha1]
  rcases le_or_lt a 0 with ha0 | ha0
  · rw [max_eq_left ha0]; exact h0
  · rw [max_eq_right (le_of_lt ha0)]; exact hab

/-- The sequential bonus additions of `predict` compute exactly the
order-independent sums of `predictSpec` (the empty case aside). -/
theorem predict_eq_spec (c : CouplingConstants) (components : List LJPWProfile)
    (f : StructuralFlags) (h : components ≠ []) :
    predict c components f = predictSpec c components f := by
  simp only [predict, predictSpec, if_neg h, meanL, meanJ, meanP, meanW,
    coupledJ, coupledP, coupledL, flagBonusL, flagBonusJ, flagBonusW, harmonyBonus,
    LJPWProfile.mk.injEq]
  refine ⟨?_, ?_, ?_, ?_⟩ <;> first
    | (congr 1; split_ifs <;> ring)
    | trivial

/-- `predict` reads the flag mapping only through the eight recognized keys
and through the total count of true entries. -/
theorem predict_flags_congr (c : CouplingConstants) (comps : List LJPWProfile)
    (f1 f2 : StructuralFlags)
    (hkeys : ∀ k ∈ recognizedFlagKeys, getFlag f1 k = getFlag f2 k)
    (hcount : trueCount f1 = trueCount f2) :
    predict c comps f1 = predict c comps f2 := by
  have hd := hkeys "has_docstring" (by simp [recognizedFlagKeys])
  have hth := hkeys "has_type_hints" (by simp [recognizedFlagKeys])
  have heh := hkeys "has_error_handling" (by simp [recognizedFlagKeys])
  have hlog := hkeys "has_logging" (by simp [recognizedFlagKeys])
  have htest := hkeys "has_testing" (by simp [recognizedFlagKeys])
  have hstate := hkeys "has_state" (by simp [recognizedFlagKeys])
  have hhist := hkeys "has_history" (by simp [recognizedFlagKeys])
  have hval := hkeys "has_validation" (by simp [recognizedFlagKeys])
  simp only [predict, hd, hth, heh, hlog, htest, hstate, hhist, hval, hcount]

theorem iteBonus_mono {f1 f2 : StructuralFlags} (hf : FlagsLe f1 f2) (k : String) {b : ℚ}
    (hb : 0 ≤ b) : (if getFlag f1 k then b else 0) ≤ (if getFlag f2 k then b else 0) := by
  by_cases h1 : getFlag f1 k
  · rw [if_pos h1, if_pos (hf k h1)]
  · rw [if_neg h1]
    by_cases h2 : getFlag f2 k
    · rw [if_pos h2]; exact hb
    · rw [if_neg h2]

theorem flagBonusL_mono {c : CouplingConstants} {f1 f2 : StructuralFlags}
    (hb : NonnegBonuses c) (hf : FlagsLe f1 f2) : flagBonusL c f1 ≤ flagBonusL c f2 := by
  obtain ⟨b1, b2, b3, b4, b5, b6, b7, b8⟩ := hb
  simp only [flagBonusL]
  gcongr <;> exact iteBonus_mono hf _ (by assumption)

theorem flagBonusJ_mono {c : CouplingConstants} {f1 f2 : StructuralFlags}
    (hb : NonnegBonuses c) (hf : FlagsLe f1 f2) : flagBonusJ c f1 ≤ flagBonusJ c f2 := by
  obtain ⟨b1, b2, b3, b4, b5, b6, b7, b8⟩ := hb
  simp only [flagBonusJ]
  gcongr
  · exact iteBonus_mono hf _ b3
  · exact iteBonus_mono hf _ b5
  · exact iteBonus_mono hf _ (by linarith)
  · exact iteBonus_mono hf _ b8

theorem flagBonusW_mono {c : CouplingConstants} {f1 f2 : StructuralFlags}
    (hb : NonnegBonuses c) (hf : FlagsLe f1 f2) : flagBonusW c f1 ≤ flagBonusW c f2 := by
  obtain ⟨b1, b2, b3, b4, b5, b6, b7, b8⟩ := hb
  simp only [flagBonusW]
  gcongr
  · exact iteBonus_mono hf _ (by linarith)
  · exact iteBonus_mono hf _ b2
  · exact iteBonus_mono hf _ b6
  · exact iteBonus_mono hf _ (by linarith)

theorem harmonyBonus_jump {f1 f2 : StructuralFlags} (h1 : trueCount f1 < 3)
    (h2 : 3 ≤ trueCount f2) : harmonyBonus f1 + 1/20 ≤ harmonyBonus f2 := by
  simp only [harmonyBonus]
  rw [if_neg (by omega), if_pos h2]
  have hc : (3:ℚ) ≤ (trueCount f2 : ℚ) := by exact_mod_cast h2
  linarith

/-! ## Concrete evaluations -/

/-- The lookups and count of the two-flag mapping of the secure_add scenario. -/
theorem secure_add_flag_values :
    getFlag [("has_validation", true), ("has_logging", true)] "has_docstring" = false
    ∧ getFlag [("has_validation", true), ("has_logging", true)] "has_type_hints" = false
    ∧ getFlag [("has_validation", true), ("has_logging", true)] "has_error_handling" = false
    ∧ getFlag [("has_validation", true), ("has_logging", true)] "has_logging" = true
    ∧ getFlag [("has_validation", true), ("has_logging", true)] "has_testing" = false
    ∧ getFlag [("has_validation", true), ("has_logging", true)] "has_state" = false
    ∧ getFlag [("has_validation", true), ("has_logging", true)] "has_history" = false
    ∧ getFlag [("has_validation", true), ("has_logging", true)] "has_validation" = true
    ∧ trueCount [("has_validation", true), ("has_logging", true)] = 2 := by decide

theorem predict_zero_noflags :
    predict CouplingConstants.default [⟨0, 0, 0, 0⟩] [] = ⟨0, 0, 0, 0⟩ := by
  rw [predict_eq_spec _ _ _ (by simp)]
  norm_num [predictSpec, meanL, meanJ, meanP, meanW, coupledJ, coupledP, coupledL,
    flagBonusL, flagBonusJ, flagBonusW, harmonyBonus, getFlag, List.find?, trueCount,
    List.countP, List.countP.go, CouplingConstants.default, clamp01, min_def, max_def]

theorem predict_zero_three_unrecognized :
    predict CouplingConstants.default [⟨0, 0, 0, 0⟩]
      [("extra_a", true), ("extra_b", true), ("extra_c", true)] = ⟨1/20, 1/20, 0, 1/20⟩ := by
  rw [predict_eq_spec _ _ _ (by simp)]
  have gk : ∀ k ∈ recognizedFlagKeys,
      getFlag [("extra_a", true), ("extra_b", true), ("extra_c", true)] k = false := by decide
  have gd := gk "has_docstring" (by simp [recognizedFlagKeys])
  have gth := gk "has_type_hints" (by simp [recognizedFlagKeys])
  have geh := gk "has_error_handling" (by simp [recognizedFlagKeys])
  have glog := gk "has_logging" (by simp [recognizedFlagKeys])
  have gtest := gk "has_testing" (by simp [recognizedFlagKeys])
  have gstate := gk "has_state" (by simp [recognizedFlagKeys])
  have ghist := gk "has_history" (by simp [recognizedFlagKeys])
  have gval := gk "has_validation" (by simp [recognizedFlagKeys])
  have gc : trueCount [("extra_a", true), ("extra_b", true), ("extra_c", true)] = 3 := by decide
  norm_num [predictSpec, meanL, meanJ, meanP, meanW, coupledJ, coupledP, coupledL,
    flagBonusL, flagBonusJ, flagBonusW, harmonyBonus,
    gd, gth, geh, glog, gtest, gstate, ghist, gval, gc,
    CouplingConstants.default, clamp01, min_def, max_def]

/-- `predict` on the three components of the secure_add training example with
the default constants: (0.67, 0.65, 0, 0). -/
theorem predict_secure_add_components :
    predict CouplingConstants.default [⟨1, 0, 0, 0⟩, ⟨0, 1, 0, 0⟩, ⟨5/10, 5/10, 0, 0⟩]
      [("has_validation", true), ("has_logging", true)] = ⟨67/100, 65/100, 0, 0⟩ := by
  rw [predict_eq_spec _ _ _ (by simp)]
  obtain ⟨gd, gth, geh, glog, gtest, gstate, ghist, gval, gc⟩ := secure_add_flag_values
  norm_num [predictSpec, meanL, meanJ, meanP, meanW, coupledJ, coupledP, coupledL,
    flagBonusL, flagBonusJ, flagBonusW, harmonyBonus,
    gd, gth, geh, glog, gtest, gstate, ghist, gval, gc,
    CouplingConstants.default, clamp01, min_def, max_def]

/-- The same prediction with the fallback constants: (0.559, 0.545, 0, 0). -/
theorem predict_secure_add_components_manual :
    predict (manual_calibration []) [⟨1, 0, 0, 0⟩, ⟨0, 1, 0, 0⟩, ⟨5/10, 5/10, 0, 0⟩]
      [("has_validation", true), ("has_logging", true)] = ⟨559/1000, 545/1000, 0, 0⟩ := by
  rw [predict_eq_spec _ _ _ (by simp)]
  obtain ⟨gd, gth, geh, glog, gtest, gstate, ghist, gval, gc⟩ := secure_add_flag_values
  norm_num [predictSpec, meanL, meanJ, meanP, meanW, coupledJ, coupledP, coupledL,
    flagBonusL, flagBonusJ, flagBonusW, harmonyBonus,
    gd, gth, geh, glog, gtest, gstate, ghist, gval, gc,
    manual_calibration, clamp01, min_def, max_def]

theorem predict_perfect_fit_default :
    predict CouplingConstants.default [⟨1, 1, 0, 0⟩] [] = ⟨1, 1, 0, 0⟩ := by
  rw [predict_eq_spec _ _ _ (by simp)]
  norm_num [predictSpec, meanL, meanJ, meanP, meanW, coupledJ, coupledP, coupledL,
    flagBonusL, flagBonusJ, flagBonusW, harmonyBonus, getFlag, List.find?, trueCount,
    List.countP, List.countP.go, CouplingConstants.default, clamp01, min_def, max_def]

theorem predict_perfect_fit_manual :
    predict (manual_calibration []) [⟨1, 1, 0, 0⟩] [] = ⟨9/10, 9/10, 0, 0⟩ := by
  rw [predict_eq_spec _ _ _ (by simp)]
  norm_num [predictSpec, meanL, meanJ, meanP, meanW, coupledJ, coupledP, coupledL,
    flagBonusL, flagBonusJ, flagBonusW, harmonyBonus, getFlag, List.find?, trueCount,
    List.countP, List.countP.go, manual_calibration, clamp01, min_def, max_def]

theorem evaluate_default_perfect_fit :
    evaluate_constants CouplingConstants.default [perfect_fit_example] = 0 := by
  simp only [evaluate_constants, perfect_fit_example, List.map_cons, List.map_nil,
    List.sum_cons, List.sum_nil, List.length_cons, List.length_nil]
  rw [predict_perfect_fit_default]
  norm_num [LJPWProfile.distSq]

theorem evaluate_manual_perfect_fit :
    evaluate_constants (manual_calibration [perfect_fit_example]) [perfect_fit_example]
      = 1/50 := by
  have hm : manual_calibration [perfect_fit_example] = manual_calibration [] := rfl
  rw [hm]
  simp only [evaluate_constants, perfect_fit_example, List.map_cons, List.map_nil,
    List.sum_cons, List.sum_nil, List.length_cons, List.length_nil]
  rw [predict_perfect_fit_manual]
  norm_num [LJPWProfile.distSq]

theorem evaluate_default_secure_add :
    evaluate_constants CouplingConstants.default [secure_add_example] = 3117/5000 := by
  simp only [evaluate_constants, secure_add_example, List.map_cons, List.map_nil,
    List.sum_cons, List.sum_nil, List.length_cons, List.length_nil]
  rw [predict_secure_add_components]
  norm_num [LJPWProfile.distSq]

theorem evaluate_manual_secure_add :
    evaluate_constants (manual_calibration [secure_add_example]) [secure_add_example]
      = 223953/500000 := by
  have hm : manual_calibration [secure_add_example] = manual_calibration [] := rfl
  rw [hm]
  simp only [evaluate_constants, secure_add_example, List.map_cons, List.map_nil,
    List.sum_cons, List.sum_nil, List.length_cons, List.length_nil]
  rw [predict_secure_add_components_manual]
  norm_num [LJPWProfile.distSq]

theorem predict_ones_noflags :
    predict CouplingConstants.default [⟨1, 1, 1, 1⟩] [] = ⟨1, 1, 1, 1⟩ := by
  rw [predict_eq_spec _ _ _ (by simp)]
  norm_num [predictSpec, meanL, meanJ, meanP, meanW, coupledJ, coupledP, coupledL,
    flagBonusL, flagBonusJ, flagBonusW, harmonyBonus, getFlag, List.find?, trueCount,
    List.countP, List.countP.go, CouplingConstants.default, clamp01, min_def, max_def]

theorem predict_ones_threeflags :
    predict CouplingConstants.default [⟨1, 1, 1, 1⟩]
      [("has_validation", true), ("has_logging", true), ("has_type_hints", true)]
      = ⟨1, 1, 1, 1⟩ := by
  rw [predict_eq_spec _ _ _ (by simp)]
  have gd : getFlag [("has_validation", true), ("has_logging", true), ("has_type_hints", true)]
      "has_docstring" = false := by decide
  have gth : getFlag [("has_validation", true), ("has_logging", true), ("has_type_hints", true)]
      "has_type_hints" = true := by decide
  have geh : getFlag [("has_validation", true), ("has_logging", true), ("has_type_hints", true)]
      "has_error_handling" = false := by decide
  have glog : getFlag [("has_validation", true), ("has_logging", true), ("has_type_hints", true)]
      "has_logging" = true := by decide
  have gtest : getFlag [("has_validation", true), ("has_logging", true), ("has_type_hints", true)]
      "has_testing" = false := by decide
  have gstate : getFlag [("has_validation", true), ("has_logging", true), ("has_type_hints", true)]
      "has_state" = false := by decide
  have ghist : getFlag [("has_validation", true), ("has_logging", true), ("has_type_hints", true)]
      "has_history" = false := by decide
  have gval : getFlag [("has_validation", true), ("has_logging", true), ("has_type_hints", true)]
      "has_validation" = true := by decide
  have gc : trueCount [("has_validation", true), ("has_logging", true), ("has_type_hints", true)]
      = 3 := by decide
  norm_num [predictSpec, meanL, meanJ, meanP, meanW, coupledJ, coupledP, coupledL,
    flagBonusL, flagBonusJ, flagBonusW, harmonyBonus,
    gd, gth, geh, glog, gtest, gstate, ghist, gval, gc,
    CouplingConstants.default, clamp01, min_def, max_def]

/-- `predict` on the single component (1,0,0,0) with validation and logging
flags: exactly (1.0, 0.1, 0, 0). -/
theorem predict_secure_add_single :
    predict CouplingConstants.default [⟨1, 0, 0, 0⟩]
      [("has_validation", true), ("has_logging", true)] = ⟨1, 1/10, 0, 0⟩ := by
  rw [predict_eq_spec _ _ _ (by simp)]
  obtain ⟨gd, gth, geh, glog, gtest, gstate, ghist, gval, gc⟩ := secure_add_flag_values
  norm_num [predictSpec, meanL, meanJ, meanP, meanW, coupledJ, coupledP, coupledL,
    flagBonusL, flagBonusJ, flagBonusW, harmonyBonus,
    gd, gth, geh, glog, gtest, gstate, ghist, gval, gc,
    CouplingConstants.default, clamp01, min_def, max_def]

theorem estimate_none_eval :
    estimate_ljpw_from_content none = ⟨3/10, 3/10, 3/10, 3/10⟩ := by
  norm_num [estimate_ljpw_from_content, mkLJPWVector, clamp01, min_def, max_def]

theorem estimate_empty_eval :
    estimate_ljpw_from_content (some "") = ⟨3/10, 1/5, 3/10, 1/5⟩ := by
  norm_num [estimate_ljpw_from_content, show ("" : String).data = [] from rfl,
    splitNl, countSub, pyStrip, startsWithHash, hasSub, List.countP, List.countP.go,
    tripleSingleQuote, mkLJPWVector, clamp01, min_def, max_def]

/-! ## Archetype score bounds -/

theorem dimensionScore_bounds (value low high : ℚ) :
    0 ≤ dimensionScore value low high ∧ dimensionScore value low high ≤ 1 := by
  simp only [dimensionScore]
  split_ifs with h1 h2 h3
  · have hc : |value - (low + high) / 2| ≤ (high - low) / 2 := by
      rw [abs_le]
      constructor <;> linarith [h1.1, h1.2]
    have hd0 : 0 ≤ |value - (low + high) / 2| / ((high - low) / 2) :=
      div_nonneg (abs_nonneg _) (le_of_lt h2)
    have hd1 : |value - (low + high) / 2| / ((high - low) / 2) ≤ 1 :=
      (div_le_one h2).mpr hc
    constructor <;> linarith
  · constructor <;> norm_num
  · have hp : 0 ≤ (low - value) / max low (1/10) := by
      apply div_nonneg (by linarith)
      have := le_max_right low (1/10 : ℚ)
      linarith
    constructor
    · exact le_max_left _ _
    · apply max_le (by norm_num)
      linarith
  · have hlo : low ≤ value := le_of_not_lt h3
    have hhi : high < value := by
      rcases not_and_or.mp h1 with h | h
      · exact absurd hlo (not_le.mpr (not_le.mp h))
      · exact not_le.mp h
    have hp : 0 ≤ (value - high) / max (1 - high) (1/10) := by
      apply div_nonneg (by linarith)
      have := le_max_right (1 - high) (1/10 : ℚ)
      linarith
    constructor
    · exact le_max_left _ _
    · apply max_le (by norm_num)
      linarith

theorem archetype_match_score_bounds (v : LJPWVector) (s : ArchetypeSignature)
    (h0 : 0 ≤ signatureTotalRange s) (h4 : signatureTotalRange s ≤ 4) :
    0 ≤ archetype_match_score v s ∧ archetype_match_score v s ≤ 1 := by
  obtain ⟨a0, a1⟩ := dimensionScore_bounds v.L s.L.1 s.L.2
  obtain ⟨b0, b1⟩ := dimensionScore_bounds v.J s.J.1 s.J.2
  obtain ⟨c0, c1⟩ := dimensionScore_bounds v.P s.P.1 s.P.2
  obtain ⟨d0, d1⟩ := dimensionScore_bounds v.W s.W.1 s.W.2
  simp only [archetype_match_score, List.sum_cons, List.sum_nil, List.length_cons,
    List.length_nil, List.cons_ne_nil, if_false, reduceIte]
  constructor
  · apply mul_nonneg
    · positivity
    · nlinarith
  · have hbase : (dimensionScore v.L s.L.1 s.L.2 + (dimensionScore v.J s.J.1 s.J.2
        + (dimensionScore v.P s.P.1 s.P.2 + (dimensionScore v.W s.W.1 s.W.2 + 0))))
          / (4 : ℚ) ≤ 1 := by
      rw [div_le_one (by norm_num)]
      linarith
    have hmult : (7/10 : ℚ) + (3/10) * (1 - signatureTotalRange s / 4) ≤ 1 := by linarith
    have hmult0 : (0:ℚ) ≤ (7/10 : ℚ) + (3/10) * (1 - signatureTotalRange s / 4) := by linarith
    calc _ ≤ 1 * ((7/10 : ℚ) + (3/10) * (1 - signatureTotalRange s / 4)) := by
              apply mul_le_mul_of_nonneg_right _ hmult0
              convert hbase using 2
         _ ≤ 1 := by linarith

theorem matchStep_preserves (coords : LJPWVector) (acc : Option Archetype × ℚ)
    (entry : Archetype × ArchetypeSignature)
    (hs : 0 ≤ archetype_match_score coords entry.2 ∧ archetype_match_score coords entry.2 ≤ 1)
    (hacc : goodAcc acc) : goodAcc (matchStep coords acc entry) := by
  simp only [matchStep]
  split_ifs with h
  · exact ⟨rfl, hs⟩
  · exact hacc

theorem foldl_matchStep_preserves (coords : LJPWVector)
    (l : List (Archetype × ArchetypeSignature)) :
    ∀ acc : Option Archetype × ℚ,
      (∀ p ∈ l, 0 ≤ archetype_match_score coords p.2 ∧ archetype_match_score coords p.2 ≤ 1) →
      goodAcc acc → goodAcc (l.foldl (matchStep coords) acc) := by
  induction l with
  | nil => intro acc _ hacc; exact hacc
  | cons hd tl ih =>
    intro acc hl hacc
    rw [List.foldl_cons]
    exact ih _ (fun p hp => hl p (List.mem_cons_of_mem hd hp))
      (matchStep_preserves coords acc hd (hl hd (List.mem_cons_self hd tl)) hacc)

theorem all_signature_scores_bounded (v : LJPWVector) :
    ∀ p ∈ ARCHETYPE_SIGNATURES,
      0 ≤ archetype_match_score v p.2 ∧ archetype_match_score v p.2 ≤ 1 := by
  intro p hp
  apply archetype_match_score_bounds
  all_goals
    simp only [ARCHETYPE_SIGNATURES, List.mem_cons, List.not_mem_nil, or_false] at hp
    rcases hp with rfl | rfl | rfl | rfl | rfl | rfl | rfl | rfl | rfl | rfl | rfl <;>
      norm_num [signatureTotalRange]

theorem match_archetype_good (v : LJPWVector) : goodAcc (match_archetype v) := by
  have hall := all_signature_scores_bounded v
  obtain ⟨e0, rest, h0⟩ : ∃ e0 rest, ARCHETYPE_SIGNATURES = e0 :: rest := ⟨_, _, rfl⟩
  rw [match_archetype, h0, List.foldl_cons]
  apply foldl_matchStep_preserves
  · intro p hp
    exact hall p (by rw [h0]; exact List.mem_cons_of_mem _ hp)
  · have hs := hall e0 (by rw [h0]; exact List.mem_cons_self _ _)
    simp only [matchStep]
    rw [if_pos (by linarith [hs.1])]
    exact ⟨rfl, hs⟩

/-! ## The claims -/

/-- C1: for every non-empty component list and every flags mapping, `predict`
returns exactly the five-step composition of the spec — unweighted per-axis
mean, the four coupling formulas (W uncoupled), each true flag's configured
bonus added to its mapped axis or axes, the harmony bonus `0.05 * (k - 2)`
added to L, J and W (not P) when the count `k` of true flags is at least 3,
and a final clamp of every axis to [0, 1]. -/
theorem predict_five_step_spec (c : CouplingConstants) (comps : List LJPWProfile)
    (f : StructuralFlags) (h : comps ≠ []) : predict c comps f = predictSpec c comps f :=
  predict_eq_spec c comps f h

theorem predict_five_step_spec_witness :
    ([⟨1, 0, 0, 0⟩] : List LJPWProfile) ≠ []
    ∧ predict CouplingConstants.default [⟨1, 0, 0, 0⟩] [("has_validation", true)]
        = predictSpec CouplingConstants.default [⟨1, 0, 0, 0⟩] [("has_validation", true)] :=
  ⟨by simp, predict_five_step_spec CouplingConstants.default [⟨1, 0, 0, 0⟩]
    [("has_validation", true)] (by simp)⟩

/-- C2 counterexample: the calibration module's `LJPWProfile` — one of the two
FeatureVector representations the claim covers — does not clamp at
construction: `LJPWProfile(-1, 2, 0, 0)` keeps L = -1 < 0 and J = 2 > 1. -/
theorem profile_construction_unclamped :
    (LJPWProfile.mk (-1) 2 0 0).L < 0 ∧ 1 < (LJPWProfile.mk (-1) 2 0 0).J := by
  norm_num

/-- C2 amended: constructing an `LJPWVector` (the semantic-capabilities
FeatureVector, whose `__post_init__` clamps) puts every axis in [0, 1] for
all rational inputs, silently and without error; the clamping invariant holds
for `LJPWVector` but not for `LJPWProfile`. -/
theorem vector_construction_clamped (L J P W : ℚ) :
    (0 ≤ (mkLJPWVector L J P W).L ∧ (mkLJPWVector L J P W).L ≤ 1)
    ∧ (0 ≤ (mkLJPWVector L J P W).J ∧ (mkLJPWVector L J P W).J ≤ 1)
    ∧ (0 ≤ (mkLJPWVector L J P W).P ∧ (mkLJPWVector L J P W).P ≤ 1)
    ∧ (0 ≤ (mkLJPWVector L J P W).W ∧ (mkLJPWVector L J P W).W ≤ 1) :=
  ⟨⟨clamp01_nonneg L, clamp01_le_one L⟩, ⟨clamp01_nonneg J, clamp01_le_one J⟩,
   ⟨clamp01_nonneg P, clamp01_le_one P⟩, ⟨clamp01_nonneg W, clamp01_le_one W⟩⟩

/-- C3 counterexample: on a one-example training set fit perfectly by the
default (initial) constants, the fallback path of calibration
(`manual_calibration`, what `optimize_constants` returns without scipy)
yields a strictly larger mean-squared error than the initial constants. -/
theorem calibration_fallback_worsens_mse :
    evaluate_constants CouplingConstants.default [perfect_fit_example]
      < evaluate_constants (manual_calibration [perfect_fit_example]) [perfect_fit_example] := by
  rw [evaluate_default_perfect_fit, evaluate_manual_perfect_fit]
  norm_num

/-- C3 amended: the fallback path offers no improvement guarantee — it
returns fixed constants independent of the data, and its MSE is strictly
better than the initial defaults on some training sets (the secure_add
example) and strictly worse on others (the perfect-fit example). -/
theorem calibration_fallback_mse_indefinite :
    evaluate_constants (manual_calibration [secure_add_example]) [secure_add_example]
        < evaluate_constants CouplingConstants.default [secure_add_example]
    ∧ evaluate_constants CouplingConstants.default [perfect_fit_example]
        < evaluate_constants (manual_calibration [perfect_fit_example]) [perfect_fit_example] := by
  rw [evaluate_default_perfect_fit, evaluate_manual_perfect_fit,
    evaluate_default_secure_add, evaluate_manual_secure_add]
  norm_num

/-- C4 counterexample: the fallback's constants are not the initial
(default) parameters reduced by one fixed percentage — κ_LJ is reduced by
exactly 25% while bonus_docstring is reduced by exactly 30% — and the κ_WL
reduction (5/22 ≈ 22.7%) even falls below the claimed 25-30% band. -/
theorem fallback_not_fixed_percentage :
    ¬ (∃ r : ℚ, (manual_calibration []).κ_LJ = (1 - r) * CouplingConstants.default.κ_LJ
        ∧ (manual_calibration []).bonus_docstring
            = (1 - r) * CouplingConstants.default.bonus_docstring)
    ∧ 1 - (manual_calibration []).κ_WL / CouplingConstants.default.κ_WL < 25/100 := by
  constructor
  · rintro ⟨r, h1, h2⟩
    simp only [manual_calibration, CouplingConstants.default] at h1 h2
    have hr : r = 1/4 := by linarith
    rw [hr] at h2
    norm_num at h2
  · norm_num [manual_calibration, CouplingConstants.default]

/-- C4 amended: when no optimizer is available calibration does not fail; it
returns fixed constants, ignoring the training examples (and consulting no
supplied initial — the code has no such parameter), equal to the default
parameters with every bonus reduced by exactly 30% and the coupling
coefficients reduced by 25%, 24.6%, 25% and 22.7% respectively; the return
value is a bare `CouplingConstants` carrying no fallback status flag. -/
theorem fallback_fixed_constants_reduction (examples : List CompositionExample) :
    manual_calibration examples = manual_calibration []
    ∧ (manual_calibration examples).κ_LJ = (3/4) * CouplingConstants.default.κ_LJ
    ∧ (manual_calibration examples).κ_LP = (49/65) * CouplingConstants.default.κ_LP
    ∧ (manual_calibration examples).κ_JL = (3/4) * CouplingConstants.default.κ_JL
    ∧ (manual_calibration examples).κ_WL = (17/22) * CouplingConstants.default.κ_WL
    ∧ (manual_calibration examples).bonus_docstring
        = (7/10) * CouplingConstants.default.bonus_docstring
    ∧ (manual_calibration examples).bonus_type_hints
        = (7/10) * CouplingConstants.default.bonus_type_hints
    ∧ (manual_calibration examples).bonus_error_handling
        = (7/10) * CouplingConstants.default.bonus_error_handling
    ∧ (manual_calibration examples).bonus_logging
        = (7/10) * CouplingConstants.default.bonus_logging
    ∧ (manual_calibration examples).bonus_testing
        = (7/10) * CouplingConstants.default.bonus_testing
    ∧ (manual_calibration examples).bonus_state
        = (7/10) * CouplingConstants.default.bonus_state
    ∧ (manual_calibration examples).bonus_history
        = (7/10) * CouplingConstants.default.bonus_history
    ∧ (manual_calibration examples).bonus_validation
        = (7/10) * CouplingConstants.default.bonus_validation := by
  refine ⟨rfl, ?_, ?_, ?_, ?_, ?_, ?_, ?_, ?_, ?_, ?_, ?_, ?_⟩ <;>
    norm_num [manual_calibration, CouplingConstants.default]

/-- C5 counterexample: `predict` on FeatureVector(1,0,0,0) with validation
and logging flags under the default constants returns exactly
(1.0, 0.1, 0.0, 0.0), whose L axis misses the claimed approximate value 0.2
by 0.8 — nothing near the profile (0.2, 0.2, 0.2, 0.4). -/
theorem secure_add_scenario_not_reproduced :
    predict CouplingConstants.default [⟨1, 0, 0, 0⟩]
        [("has_validation", true), ("has_logging", true)] = ⟨1, 1/10, 0, 0⟩
    ∧ |(predict CouplingConstants.default [⟨1, 0, 0, 0⟩]
        [("has_validation", true), ("has_logging", true)]).L - 2/10| = 8/10 := by
  refine ⟨predict_secure_add_single, ?_⟩
  rw [predict_secure_add_single]
  norm_num

/-- C5 amended: that prediction is exactly (1.0, 0.1, 0.0, 0.0); the profile
(0.2, 0.2, 0.2, 0.4) is the empirically observed `actual_profile` recorded
for the secure_add training example — the target the predictor is being
calibrated towards, not its output. -/
theorem secure_add_scenario_exact :
    predict CouplingConstants.default [⟨1, 0, 0, 0⟩]
        [("has_validation", true), ("has_logging", true)] = ⟨1, 1/10, 0, 0⟩
    ∧ secure_add_example.actual_profile = ⟨2/10, 2/10, 2/10, 4/10⟩ :=
  ⟨predict_secure_add_single, rfl⟩

/-- C6 counterexample: two flag mappings that agree on all eight recognized
keys (none is set) but differ on three unrecognized keys produce different
predictions — the unrecognized true flags feed the harmony-bonus count. -/
theorem unrecognized_flags_affect_output :
    (∀ k ∈ recognizedFlagKeys,
      getFlag [] k = getFlag [("extra_a", true), ("extra_b", true), ("extra_c", true)] k)
    ∧ predict CouplingConstants.default [⟨0, 0, 0, 0⟩] []
        ≠ predict CouplingConstants.default [⟨0, 0, 0, 0⟩]
            [("extra_a", true), ("extra_b", true), ("extra_c", true)] := by
  refine ⟨by decide, ?_⟩
  rw [predict_zero_noflags, predict_zero_three_unrecognized]
  simp only [ne_eq, LJPWProfile.mk.injEq, not_and]
  intro h
  norm_num at h

/-- C6 amended: unrecognized flag keys receive no per-flag bonus, but they do
count toward the harmony bonus; `predict` returns identical output (raising
no error) for any two flag mappings that agree on the eight recognized keys
AND have the same total count of true entries. -/
theorem predict_depends_on_recognized_and_count (c : CouplingConstants)
    (comps : List LJPWProfile) (f1 f2 : StructuralFlags)
    (hkeys : ∀ k ∈ recognizedFlagKeys, getFlag f1 k = getFlag f2 k)
    (hcount : trueCount f1 = trueCount f2) :
    predict c comps f1 = predict c comps f2 :=
  predict_flags_congr c comps f1 f2 hkeys hcount

theorem predict_depends_on_recognized_and_count_witness :
    (∀ k ∈ recognizedFlagKeys, getFlag [("has_logging", true)] k
        = getFlag [("has_logging", true), ("extra_key", false)] k)
    ∧ trueCount [("has_logging", true)]
        = trueCount [("has_logging", true), ("extra_key", false)]
    ∧ predict CouplingConstants.default [⟨5/10, 0, 0, 0⟩] [("has_logging", true)]
        = predict CouplingConstants.default [⟨5/10, 0, 0, 0⟩]
            [("has_logging", true), ("extra_key", false)] :=
  ⟨by decide, by decide,
    predict_depends_on_recognized_and_count CouplingConstants.default [⟨5/10, 0, 0, 0⟩]
      [("has_logging", true)] [("has_logging", true), ("extra_key", false)]
      (by decide) (by decide)⟩

/-- C7 counterexample: the empty text is read successfully and does NOT
produce the all-0.3 neutral default — its J axis is 0.2 (splitting the empty
string yields one empty line, so the zero-lines branch never fires and the
heuristic runs on zero counts). -/
theorem empty_text_not_neutral_default :
    (estimate_ljpw_from_content (some "")).J ≠ 3/10 := by
  rw [estimate_empty_eval]
  norm_num

/-- C7 amended: on a read/decode failure the extractor returns the fixed
neutral default (0.3, 0.3, 0.3, 0.3) and never raises; successfully read
empty text instead yields the heuristic value (0.3, 0.2, 0.3, 0.2). -/
theorem extractor_failure_and_empty_values :
    estimate_ljpw_from_content none = ⟨3/10, 3/10, 3/10, 3/10⟩
    ∧ estimate_ljpw_from_content (some "") = ⟨3/10, 1/5, 3/10, 1/5⟩ :=
  ⟨estimate_none_eval, estimate_empty_eval⟩

/-- C8 counterexample: with the component (1,1,1,1), going from zero true
flags to three true flags leaves the prediction unchanged at (1,1,1,1) —
the upper clamp absorbs the harmony bonus, so L, J and W do not strictly
increase. -/
theorem harmony_bonus_not_strict_at_clamp :
    trueCount ([] : StructuralFlags) = 0
    ∧ trueCount [("has_validation", true), ("has_logging", true), ("has_type_hints", true)] = 3
    ∧ predict CouplingConstants.default [⟨1, 1, 1, 1⟩] []
        = predict CouplingConstants.default [⟨1, 1, 1, 1⟩]
            [("has_validation", true), ("has_logging", true), ("has_type_hints", true)] := by
  refine ⟨by decide, by decide, ?_⟩
  rw [predict_ones_noflags, predict_ones_threeflags]

/-- C8 amended: turning additional flags true so the true count goes from
below 3 to 3 or more (bonuses non-negative) never decreases the predicted L,
J and W, leaves P exactly unchanged, and strictly increases each of L, J, W
whenever that axis of the richer prediction lies strictly inside (0, 1),
i.e. away from the clamp. -/
theorem harmony_bonus_weak_monotonicity (c : CouplingConstants) (comps : List LJPWProfile)
    (f1 f2 : StructuralFlags) (hb : NonnegBonuses c) (hf : FlagsLe f1 f2)
    (h1 : trueCount f1 < 3) (h2 : 3 ≤ trueCount f2) :
    ((predict c comps f1).L ≤ (predict c comps f2).L
      ∧ (predict c comps f1).J ≤ (predict c comps f2).J
      ∧ (predict c comps f1).W ≤ (predict c comps f2).W)
    ∧ (predict c comps f1).P = (predict c comps f2).P
    ∧ ((0 < (predict c comps f2).L → (predict c comps f2).L < 1 →
          (predict c comps f1).L < (predict c comps f2).L)
      ∧ (0 < (predict c comps f2).J → (predict c comps f2).J < 1 →
          (predict c comps f1).J < (predict c comps f2).J)
      ∧ (0 < (predict c comps f2).W → (predict c comps f2).W < 1 →
          (predict c comps f1).W < (predict c comps f2).W)) := by
  by_cases hc : comps = []
  · subst hc
    simp only [predict, if_pos rfl]
    refine ⟨⟨le_rfl, le_rfl, le_rfl⟩, rfl, ?_, ?_, ?_⟩ <;>
      · intro habs _
        exact absurd habs (lt_irrefl 0)
  · rw [predict_eq_spec c comps f1 hc, predict_eq_spec c comps f2 hc]
    simp only [predictSpec]
    have hjump := harmonyBonus_jump h1 h2
    have hL : coupledL c comps + flagBonusL c f1 + harmonyBonus f1
        < coupledL c comps + flagBonusL c f2 + harmonyBonus f2 := by
      have := flagBonusL_mono hb hf
      linarith
    have hJ : coupledJ c comps + flagBonusJ c f1 + harmonyBonus f1
        < coupledJ c comps + flagBonusJ c f2 + harmonyBonus f2 := by
      have := flagBonusJ_mono hb hf
      linarith
    have hW : meanW comps + flagBonusW c f1 + harmonyBonus f1
        < meanW comps + flagBonusW c f2 + harmonyBonus f2 := by
      have := flagBonusW_mono hb hf
      linarith
    exact ⟨⟨clamp01_mono (le_of_lt hL), clamp01_mono (le_of_lt hJ), clamp01_mono (le_of_lt hW)⟩,
      trivial,
      fun h0 h1' => clamp01_lt_of_lt hL h0 h1',
      fun h0 h1' => clamp01_lt_of_lt hJ h0 h1',
      fun h0 h1' => clamp01_lt_of_lt hW h0 h1'⟩

theorem harmony_bonus_weak_monotonicity_witness :
    ((predict CouplingConstants.default [⟨5/10, 5/10, 5/10, 5/10⟩] []).L
        ≤ (predict CouplingConstants.default [⟨5/10, 5/10, 5/10, 5/10⟩]
            [("has_docstring", true), ("has_type_hints", true), ("has_error_handling", true)]).L
      ∧ (predict CouplingConstants.default [⟨5/10, 5/10, 5/10, 5/10⟩] []).J
        ≤ (predict CouplingConstants.default [⟨5/10, 5/10, 5/10, 5/10⟩]
            [("has_docstring", true), ("has_type_hints", true), ("has_error_handling", true)]).J
      ∧ (predict CouplingConstants.default [⟨5/10, 5/10, 5/10, 5/10⟩] []).W
        ≤ (predict CouplingConstants.default [⟨5/10, 5/10, 5/10, 5/10⟩]
            [("has_docstring", true), ("has_type_hints", true), ("has_error_handling", true)]).W)
    ∧ (predict CouplingConstants.default [⟨5/10, 5/10, 5/10, 5/10⟩] []).P
        = (predict CouplingConstants.default [⟨5/10, 5/10, 5/10, 5/10⟩]
            [("has_docstring", true), ("has_type_hints", true), ("has_error_handling", true)]).P
    ∧ ((0 < (predict CouplingConstants.default [⟨5/10, 5/10, 5/10, 5/10⟩]
            [("has_docstring", true), ("has_type_hints", true), ("has_error_handling", true)]).L →
        (predict CouplingConstants.default [⟨5/10, 5/10, 5/10, 5/10⟩]
            [("has_docstring", true), ("has_type_hints", true), ("has_error_handling", true)]).L < 1 →
        (predict CouplingConstants.default [⟨5/10, 5/10, 5/10, 5/10⟩] []).L
          < (predict CouplingConstants.default [⟨5/10, 5/10, 5/10, 5/10⟩]
              [("has_docstring", true), ("has_type_hints", true), ("has_error_handling", true)]).L)
      ∧ (0 < (predict CouplingConstants.default [⟨5/10, 5/10, 5/10, 5/10⟩]
            [("has_docstring", true), ("has_type_hints", true), ("has_error_handling", true)]).J →
        (predict CouplingConstants.default [⟨5/10, 5/10, 5/10, 5/10⟩]
            [("has_docstring", true), ("has_type_hints", true), ("has_error_handling", true)]).J < 1 →
        (predict CouplingConstants.default [⟨5/10, 5/10, 5/10, 5/10⟩] []).J
          < (predict CouplingConstants.default [⟨5/10, 5/10, 5/10, 5/10⟩]
              [("has_docstring", true), ("has_type_hints", true), ("has_error_handling", true)]).J)
      ∧ (0 < (predict CouplingConstants.default [⟨5/10, 5/10, 5/10, 5/10⟩]
            [("has_docstring", true), ("has_type_hints", true), ("has_error_handling", true)]).W →
        (predict CouplingConstants.default [⟨5/10, 5/10, 5/10, 5/10⟩]
            [("has_docstring", true), ("has_type_hints", true), ("has_error_handling", true)]).W < 1 →
        (predict CouplingConstants.default [⟨5/10, 5/10, 5/10, 5/10⟩] []).W
          < (predict CouplingConstants.default [⟨5/10, 5/10, 5/10, 5/10⟩]
              [("has_docstring", true), ("has_type_hints", true), ("has_error_handling", true)]).W)) :=
  harmony_bonus_weak_monotonicity CouplingConstants.default [⟨5/10, 5/10, 5/10, 5/10⟩] []
    [("has_docstring", true), ("has_type_hints", true), ("has_error_handling", true)]
    (by norm_num [NonnegBonuses, CouplingConstants.default])
    (by intro k hk; simp [getFlag, List.find?] at hk)
    (by decide) (by decide)

/-- C9: for every input vector with all four axes in [0, 1], archetype
matching returns a defined best-matching archetype (never the None case, the
table being non-empty) together with a confidence score in [0, 1]. -/
theorem archetype_match_confidence_bounds (v : LJPWVector)
    (_h : (0 ≤ v.L ∧ v.L ≤ 1) ∧ (0 ≤ v.J ∧ v.J ≤ 1)
      ∧ (0 ≤ v.P ∧ v.P ≤ 1) ∧ (0 ≤ v.W ∧ v.W ≤ 1)) :
    (match_archetype v).1.isSome = true
    ∧ 0 ≤ (match_archetype v).2 ∧ (match_archetype v).2 ≤ 1 :=
  match_archetype_good v

theorem archetype_match_confidence_bounds_witness :
    ((0 ≤ (LJPWVector.mk (1/2) (1/2) (1/2) (1/2)).L
        ∧ (LJPWVector.mk (1/2) (1/2) (1/2) (1/2)).L ≤ 1)
      ∧ (0 ≤ (LJPWVector.mk (1/2) (1/2) (1/2) (1/2)).J
        ∧ (LJPWVector.mk (1/2) (1/2) (1/2) (1/2)).J ≤ 1)
      ∧ (0 ≤ (LJPWVector.mk (1/2) (1/2) (1/2) (1/2)).P
        ∧ (LJPWVector.mk (1/2) (1/2) (1/2) (1/2)).P ≤ 1)
      ∧ (0 ≤ (LJPWVector.mk (1/2) (1/2) (1/2) (1/2)).W
        ∧ (LJPWVector.mk (1/2) (1/2) (1/2) (1/2)).W ≤ 1))
    ∧ ((match_archetype ⟨1/2, 1/2, 1/2, 1/2⟩).1.isSome = true
      ∧ 0 ≤ (match_archetype ⟨1/2, 1/2, 1/2, 1/2⟩).2
      ∧ (match_archetype ⟨1/2, 1/2, 1/2, 1/2⟩).2 ≤ 1) :=
  ⟨by norm_num, archetype_match_confidence_bounds ⟨1/2, 1/2, 1/2, 1/2⟩ (by norm_num)⟩

/-- C10: `semantic_resonance` is symmetric — both the dominant-dimension
match term and the per-axis similarity term are invariant under swapping the
two entities. -/
theorem semantic_resonance_symmetric (a b : SemanticEntity) :
    semantic_resonance a b = semantic_resonance b a := by
  simp only [semantic_resonance]
  rw [abs_sub_comm a.coordinates.L, abs_sub_comm a.coordinates.J,
    abs_sub_comm a.coordinates.P, abs_sub_comm a.coordinates.W]
  by_cases h : a.coordinates.dominant_dimension = b.coordinates.dominant_dimension
  · rw [if_pos h, if_pos h.symm]
  · rw [if_neg h, if_neg (fun hh => h hh.symm)]
